import Mathlib

/-!
Verification of the quiz-guard, prompt-assembly and corpus-loading logic of
the Linear Algebra tutor application (`app.py`).

The Python code is shallowly embedded:
* strings are Lean `String`s, manipulated through their `List Char` data
  (Python `str.lower()`, slicing and `in` operate on code points);
* `re.findall(r"[a-z0-9^_]+", s)` is embedded as splitting the character
  list into maximal runs of characters of that class;
* Python `int(0.4 * k)` truncates toward zero; for natural `k` this is
  `(2 * k) / 5` in exact arithmetic (natural-number floor division);
* fallible filesystem / PDF-parsing operations are embedded in
  `Except String`, an exception raised by the PDF parser being `.error`;
* the external chat-completion call is an oracle parameter of the
  submit handler.
-/

/-- Lowercase a string the way Python `str.lower()` does on ASCII input,
as a list of characters. -/
def lowerChars (s : String) : List Char := s.data.map Char.toLower

/-- Membership in the regex character class `[a-z0-9^_]`
(inside a class a caret not in first position is a literal caret). -/
def tokChar (c : Char) : Bool :=
  decide (('a' ≤ c ∧ c ≤ 'z') ∨ ('0' ≤ c ∧ c ≤ '9') ∨ c = '^' ∨ c = '_')

/-- Splitting a character list into the maximal runs of characters of the
class `[a-z0-9^_]`, i.e. the matches of `re.findall(r"[a-z0-9^_]+", s)`,
with an accumulator holding the current run reversed. -/
def tokensAux : List Char → List Char → List (List Char)
  | [], acc => if acc = [] then [] else [acc.reverse]
  | c :: cs, acc =>
    if tokChar c then tokensAux cs (c :: acc)
    else if acc = [] then tokensAux cs [] else acc.reverse :: tokensAux cs []

/-- All matches of `[a-z0-9^_]+` over a character list, in order. -/
def findTokens (s : List Char) : List (List Char) := tokensAux s []

/-- The set of distinct tokens of a string, as a duplicate-free list:
the embedding of `set(re.findall(r"[a-z0-9^_]+", s))`. -/
def tokenSet (s : List Char) : List (List Char) := (findTokens s).dedup

/-- Size of the intersection of the two token sets:
`len(tokens_q & tokens_quiz)` in the source. -/
def overlapCount (q t : List Char) : Nat :=
  ((tokenSet q).filter (fun x => (tokenSet t).contains x)).length

/-- Boolean test that `q` occurs at the very start of `t`. -/
def leadMatch : List Char → List Char → Bool
  | [], _ => true
  | _ :: _, [] => false
  | a :: as, b :: bs => a == b && leadMatch as bs

/-- Boolean substring test: the embedding of Python `q in t` on strings. -/
def occursIn (q : List Char) : List Char → Bool
  | [] => q.isEmpty
  | c :: ts => leadMatch q (c :: ts) || occursIn q ts

/-- The guard `local_quiz_guard(user_q, quiz_text)` of `app.py`.
`user_q` is `Option String` because the Python parameter may be `None`;
`(user_q or "")` coalesces both `None` and `""` to `""`, which is
`Option.getD user_q ""` here. -/
def local_quiz_guard (user_q : Option String) (quiz_text : String) : Bool :=
  let q := lowerChars (user_q.getD "")
  if q = [] ∨ quiz_text.data = [] then false
  else if occursIn q (lowerChars quiz_text) then true
  else decide (overlapCount q (lowerChars quiz_text) ≥
    max 8 (2 * (tokenSet q).length / 5))

/-- Python string slicing `s[:n]`: the first `n` code points of `s`. -/
def truncate (s : String) (n : Nat) : String := String.mk (s.data.take n)

/-- Python `str.strip()`: remove leading and trailing whitespace. -/
def pyStrip (s : String) : String :=
  String.mk (((s.data.dropWhile Char.isWhitespace).reverse.dropWhile
    Char.isWhitespace).reverse)

/-- One role-tagged segment of the chat-completion payload. -/
structure Message where
  role : String
  content : String
deriving DecidableEq

/-- The system instruction of `call_model` (first message). -/
def SYSTEM_INSTRUCTION : String :=
  "You are a helpful Linear Algebra tutor for a university course. " ++
  "Use ONLY the provided course material to explain concepts. " ++
  "IMPORTANT: If the student\x27s question is from the current quiz, " ++
  "politely refuse without giving hints or answers."

/-- The label prefixed to the course-material segment. -/
def COURSE_LABEL : String := "COURSE MATERIAL:\n"

/-- The label prefixed to the quiz-material segment. -/
def QUIZ_LABEL : String :=
  "QUIZ (for filtering ONLY — do not reveal or discuss this content):\n"

/-- The `messages` list built inside `call_model` of `app.py`:
system instruction, course material truncated to 200000 characters
(placeholder when empty), quiz material truncated to 100000 characters
(placeholder when empty), then the stripped user question. -/
def call_model_messages (user_q course_text quiz_text : String) : List Message :=
  [ ⟨"system", SYSTEM_INSTRUCTION⟩,
    ⟨"system", COURSE_LABEL ++
      (if course_text = "" then "(none provided)" else truncate course_text 200000)⟩,
    ⟨"system", QUIZ_LABEL ++
      (if quiz_text = "" then "(none provided)" else truncate quiz_text 100000)⟩,
    ⟨"user", pyStrip user_q⟩ ]

/-- Outcome of the external call `client.chat.completions.create`:
either a completion text or a raised exception message. -/
inductive ModelResult
  | ok (answer : String)
  | err (msg : String)
deriving DecidableEq

/-- What one submission produces: the text shown to the user and whether
the generation API was invoked. -/
structure SubmitOutcome where
  displayed : String
  modelCalled : Bool
deriving DecidableEq

/-- The fixed refusal shown when the guard blocks a question. -/
def REFUSAL_MESSAGE : String :=
  "Sorry, I can’t assist with questions from the current quiz. I’m happy to help with other course topics."

/-- The submit handler at the bottom of `app.py`:
`if submit and user_q.strip():` then either the fixed refusal (guard true,
no API call) or the result of `call_model` (answer stripped and rendered,
exceptions surfaced as an error message). The external chat API is the
oracle parameter `api`. -/
def submit_handler (submit : Bool) (user_q course_text quiz_text : String)
    (api : List Message → ModelResult) : SubmitOutcome :=
  if submit = true ∧ pyStrip user_q ≠ "" then
    if local_quiz_guard (some user_q) quiz_text then
      ⟨REFUSAL_MESSAGE, false⟩
    else
      match api (call_model_messages user_q course_text quiz_text) with
      | ModelResult.ok answer => ⟨pyStrip answer, true⟩
      | ModelResult.err e => ⟨"Error: " ++ e, true⟩
  else ⟨"", false⟩

/-- A PDF file as the loader sees it: either readable, yielding per-page
extracted text (`page.extract_text()` may return `None`), or one whose
parse by `PdfReader` raises an exception. -/
inductive PdfEntry
  | readable (pages : List (Option String))
  | corrupt (msg : String)
deriving DecidableEq

/-- The parts of the filesystem the loader consults: PDF files by path and
directory listings by path. -/
structure FileSystem where
  files : List (String × PdfEntry)
  dirs : List (String × List String)
deriving DecidableEq

/-- Look up a file; `none` means `os.path.exists(path)` is false. -/
def FileSystem.findFile (fs : FileSystem) (path : String) : Option PdfEntry :=
  (fs.files.find? (fun kv => kv.1 == path)).map (fun kv => kv.2)

/-- Look up a directory listing; `none` means `os.path.isdir(folder)` is false. -/
def FileSystem.findDir (fs : FileSystem) (folder : String) : Option (List String) :=
  (fs.dirs.find? (fun kv => kv.1 == folder)).map (fun kv => kv.2)

/-- `extract_text_from_pdf(path)` of `app.py`: empty text when the path
does not exist, the page texts (with `None` coalesced to `""`) joined by
newlines otherwise; a `PdfReader` exception propagates (there is no
try/except in the source). -/
def extract_text_from_pdf (fs : FileSystem) (path : String) : Except String String :=
  match fs.findFile path with
  | none => Except.ok ""
  | some (PdfEntry.corrupt msg) => Except.error msg
  | some (PdfEntry.readable pages) =>
      Except.ok (String.intercalate "\n" (pages.map (fun p => p.getD "")))

/-- Insert one name into a sorted list of names (ascending). -/
def insertSorted (x : String) : List String → List String
  | [] => [x]
  | y :: ys => if decide (x ≤ y) then x :: y :: ys else y :: insertSorted x ys

/-- `sorted(...)` over file names. -/
def sortNames : List String → List String
  | [] => []
  | x :: xs => insertSorted x (sortNames xs)

/-- Boolean suffix test on character lists, for `str.endswith`. -/
def endsWithL (s suf : List Char) : Bool := leadMatch suf.reverse s.reverse

/-- The loop body of `extract_texts_from_folder`: for each name ending in
`.pdf` (case-insensitively), append the `--- FILE: <name> ---` header and
the file's extracted text; an extraction exception propagates. -/
def folderLoop (fs : FileSystem) (folder : String) : List String → Except String (List String)
  | [] => Except.ok []
  | name :: rest =>
    if endsWithL (lowerChars name) ".pdf".data then
      match extract_text_from_pdf fs (folder ++ "/" ++ name) with
      | Except.error e => Except.error e
      | Except.ok t =>
        match folderLoop fs folder rest with
        | Except.error e => Except.error e
        | Except.ok buf =>
            Except.ok (("\n\n--- FILE: " ++ name ++ " ---\n") :: t :: buf)
    else folderLoop fs folder rest

/-- `extract_texts_from_folder(folder)` of `app.py`: empty text when the
folder is not a directory, otherwise the headers and texts of all `.pdf`
files, sorted by name, joined by newlines. -/
def extract_texts_from_folder (fs : FileSystem) (folder : String) : Except String String :=
  match fs.findDir folder with
  | none => Except.ok ""
  | some names =>
    match folderLoop fs folder (sortNames names) with
    | Except.error e => Except.error e
    | Except.ok buf => Except.ok (String.intercalate "\n" buf)

/-- Configured course-material directory. -/
def COURSE_PDF_DIR : String := "pdfs"

/-- Configured quiz file path. -/
def QUIZ_PDF_PATH : String := "quiz/current_quiz.pdf"

/-- `load_corpus()` of `app.py` over the filesystem model. -/
def load_corpus (fs : FileSystem) : Except String (String × String) :=
  match extract_texts_from_folder fs COURSE_PDF_DIR with
  | Except.error e => Except.error e
  | Except.ok course =>
    match extract_text_from_pdf fs QUIZ_PDF_PATH with
    | Except.error e => Except.error e
    | Except.ok quiz => Except.ok (course, quiz)

/-- A filesystem whose course directory holds a single PDF that makes the
parser raise, and whose quiz file also makes the parser raise. -/
def fsCorrupt : FileSystem :=
  ⟨[("pdfs/a.pdf", PdfEntry.corrupt "bad pdf"),
    ("quiz/current_quiz.pdf", PdfEntry.corrupt "bad quiz")],
   [("pdfs", ["a.pdf"])]⟩

lemma data_eq_nil_iff (s : String) : s.data = [] ↔ s = "" := by
  rw [String.ext_iff]

lemma lowerChars_eq_nil_iff (s : String) : lowerChars s = [] ↔ s = "" := by
  rw [lowerChars, List.map_eq_nil_iff, data_eq_nil_iff]

lemma overlapCount_le (q t : List Char) :
    overlapCount q t ≤ (tokenSet q).length :=
  List.length_filter_le _ _

/-- C1: when the lowercased question is non-empty, the quiz text is
non-empty, and the lowercased question is not a substring of the lowercased
quiz text, `local_quiz_guard` returns true exactly when the number of
distinct tokens (matches of `[a-z0-9^_]+`) shared between the two lowercased
strings is at least `max 8 (floor (0.4 * k))` where `k` is the number of
distinct tokens of the question (Python `int(0.4 * k)` truncates, which is
the floor `2 * k / 5` for natural `k`). -/
theorem guard_overlap_threshold_iff (q t : String)
    (hq : lowerChars q ≠ []) (ht : t ≠ "")
    (hsub : occursIn (lowerChars q) (lowerChars t) = false) :
    local_quiz_guard (some q) t = true ↔
      overlapCount (lowerChars q) (lowerChars t) ≥
        max 8 (2 * (tokenSet (lowerChars q)).length / 5) := by
  have htd : t.data ≠ [] := fun h => ht ((data_eq_nil_iff t).mp h)
  unfold local_quiz_guard
  simp only [Option.getD_some]
  rw [if_neg (by exact fun h => h.elim hq htd)]
  rw [if_neg (by rw [hsub]; exact Bool.false_ne_true)]
  exact decide_eq_true_iff

/-- C1 witness: the question has exactly 10 distinct tokens, the quiz text
shares exactly 4 of them and does not contain the question verbatim, so the
guard returns false (4 < max 8 4). -/
theorem guard_overlap_threshold_iff_witness :
    lowerChars "t1 t2 t3 t4 t5 t6 t7 t8 t9 v0" ≠ [] ∧
    ("t1 t2 t3 t4 mm" : String) ≠ "" ∧
    occursIn (lowerChars "t1 t2 t3 t4 t5 t6 t7 t8 t9 v0")
      (lowerChars "t1 t2 t3 t4 mm") = false ∧
    (tokenSet (lowerChars "t1 t2 t3 t4 t5 t6 t7 t8 t9 v0")).length = 10 ∧
    overlapCount (lowerChars "t1 t2 t3 t4 t5 t6 t7 t8 t9 v0")
      (lowerChars "t1 t2 t3 t4 mm") = 4 ∧
    (local_quiz_guard (some "t1 t2 t3 t4 t5 t6 t7 t8 t9 v0") "t1 t2 t3 t4 mm" = true ↔
      overlapCount (lowerChars "t1 t2 t3 t4 t5 t6 t7 t8 t9 v0")
        (lowerChars "t1 t2 t3 t4 mm") ≥
        max 8 (2 * (tokenSet (lowerChars "t1 t2 t3 t4 t5 t6 t7 t8 t9 v0")).length / 5)) :=
  ⟨by decide, by decide, by decide, by decide, by decide,
   guard_overlap_threshold_iff "t1 t2 t3 t4 t5 t6 t7 t8 t9 v0" "t1 t2 t3 t4 mm"
     (by decide) (by decide) (by decide)⟩

/-- C2: for a non-empty question and non-empty quiz text, if the lowercased
question occurs verbatim inside the lowercased quiz text then the guard
returns true. -/
theorem guard_substring_true (q t : String) (hq : q ≠ "") (ht : t ≠ "")
    (hsub : occursIn (lowerChars q) (lowerChars t) = true) :
    local_quiz_guard (some q) t = true := by
  have hql : lowerChars q ≠ [] := fun h => hq ((lowerChars_eq_nil_iff q).mp h)
  have htd : t.data ≠ [] := fun h => ht ((data_eq_nil_iff t).mp h)
  unfold local_quiz_guard
  simp only [Option.getD_some]
  rw [if_neg (by exact fun h => h.elim hql htd), if_pos hsub]

/-- C2 witness: the question appears verbatim (after lowercasing) inside the
quiz text, so the guard blocks it. -/
theorem guard_substring_true_witness :
    ("What is the rank of a matrix" : String) ≠ "" ∧
    ("Q1. what is the rank of a matrix?" : String) ≠ "" ∧
    occursIn (lowerChars "What is the rank of a matrix")
      (lowerChars "Q1. what is the rank of a matrix?") = true ∧
    local_quiz_guard (some "What is the rank of a matrix")
      "Q1. what is the rank of a matrix?" = true :=
  ⟨by decide, by decide, by decide,
   guard_substring_true "What is the rank of a matrix"
     "Q1. what is the rank of a matrix?" (by decide) (by decide) (by decide)⟩

/-- C3: the guard fails open — an empty question or an empty quiz text
yields false. -/
theorem guard_empty_false (q t : String) :
    (q = "" → local_quiz_guard (some q) t = false) ∧
    (t = "" → local_quiz_guard (some q) t = false) := by
  constructor
  · intro h
    subst h
    rfl
  · intro h
    subst h
    unfold local_quiz_guard
    rw [if_pos (Or.inr rfl)]

/-- C3 witness: an empty question is never blocked, and a non-empty question
is never blocked when the quiz text is empty. -/
theorem guard_empty_false_witness :
    local_quiz_guard (some "") "some quiz text" = false ∧
    local_quiz_guard (some "any question") "" = false :=
  ⟨(guard_empty_false "" "some quiz text").1 rfl,
   (guard_empty_false "any question" "").2 rfl⟩

/-- C9: a question with fewer than 8 distinct tokens that is not a verbatim
(lowercased) substring of the quiz text is never blocked, because the
token-overlap threshold is at least 8 and the overlap is at most the number
of distinct question tokens. -/
theorem guard_short_question_false (q t : String)
    (hsub : occursIn (lowerChars q) (lowerChars t) = false)
    (hk : (tokenSet (lowerChars q)).length < 8) :
    local_quiz_guard (some q) t = false := by
  have hov := overlapCount_le (lowerChars q) (lowerChars t)
  unfold local_quiz_guard
  simp only [Option.getD_some]
  by_cases hc : lowerChars q = [] ∨ t.data = []
  · rw [if_pos hc]
  · rw [if_neg hc]
    rw [if_neg (by rw [hsub]; exact Bool.false_ne_true)]
    rw [decide_eq_false]
    intro hge
    have h8 : 8 ≤ max 8 (2 * (tokenSet (lowerChars q)).length / 5) :=
      le_max_left _ _
    omega

/-- C9 witness: a 4-token question sharing all its tokens with the quiz text
but not occurring verbatim in it is still allowed. -/
theorem guard_short_question_false_witness :
    occursIn (lowerChars "rank of a matrix")
      (lowerChars "matrix rank: what is the rank of a 3x3 matrix of ones") = false ∧
    (tokenSet (lowerChars "rank of a matrix")).length < 8 ∧
    local_quiz_guard (some "rank of a matrix")
      "matrix rank: what is the rank of a 3x3 matrix of ones" = false :=
  ⟨by decide, by decide,
   guard_short_question_false "rank of a matrix"
     "matrix rank: what is the rank of a 3x3 matrix of ones"
     (by decide) (by decide)⟩

/-- C10: a missing (None) question is coalesced to the empty string by
`(user_q or "")` and the guard returns false without raising (the embedded
guard is a total function). -/
theorem guard_none_false (t : String) : local_quiz_guard none t = false := by
  unfold local_quiz_guard
  simp only [Option.getD_none]
  rw [if_pos (Or.inl (show lowerChars "" = [] from rfl))]

/-- C4: for a submitted non-blank question, a true guard verdict shows the
fixed refusal and never invokes the generation API, and the API is invoked
only when the verdict is false. -/
theorem submit_refusal_no_api_call (q c t : String)
    (api : List Message → ModelResult) (hq : pyStrip q ≠ "") :
    (local_quiz_guard (some q) t = true →
      submit_handler true q c t api = ⟨REFUSAL_MESSAGE, false⟩) ∧
    ((submit_handler true q c t api).modelCalled = true →
      local_quiz_guard (some q) t = false) := by
  unfold submit_handler
  rw [if_pos ⟨rfl, hq⟩]
  constructor
  · intro hg
    rw [if_pos hg]
  · intro hm
    cases hgb : local_quiz_guard (some q) t
    · rfl
    · rw [if_pos hgb] at hm
      exact absurd hm (by simp)

/-- C4 witness: the question occurs verbatim in the quiz text, the guard is
true, the refusal is displayed and the model oracle is not consulted. -/
theorem submit_refusal_no_api_call_witness :
    pyStrip "foo bar" ≠ "" ∧
    (local_quiz_guard (some "foo bar") "x foo bar y" = true →
      submit_handler true "foo bar" "course" "x foo bar y"
        (fun _ => ModelResult.ok "ans") = ⟨REFUSAL_MESSAGE, false⟩) ∧
    ((submit_handler true "foo bar" "course" "x foo bar y"
        (fun _ => ModelResult.ok "ans")).modelCalled = true →
      local_quiz_guard (some "foo bar") "x foo bar y" = false) :=
  ⟨by decide,
   (submit_refusal_no_api_call "foo bar" "course" "x foo bar y"
     (fun _ => ModelResult.ok "ans") (by decide)).1,
   (submit_refusal_no_api_call "foo bar" "course" "x foo bar y"
     (fun _ => ModelResult.ok "ans") (by decide)).2⟩

/-- C5: the payload always has exactly the four segments in fixed order —
system instruction, course material truncated to 200000 characters (or the
placeholder when empty), quiz material truncated to 100000 characters (or
the placeholder when empty), and the stripped user question with role
`user` — and the quiz material put in the payload never exceeds 100000
characters. -/
theorem payload_four_segments (q c t : String) :
    (call_model_messages q c t).length = 4 ∧
    (call_model_messages q c t).map Message.role =
      ["system", "system", "system", "user"] ∧
    call_model_messages q c t =
      [ ⟨"system", SYSTEM_INSTRUCTION⟩,
        ⟨"system", COURSE_LABEL ++
          (if c = "" then "(none provided)" else truncate c 200000)⟩,
        ⟨"system", QUIZ_LABEL ++
          (if t = "" then "(none provided)" else truncate t 100000)⟩,
        ⟨"user", pyStrip q⟩ ] ∧
    (truncate t 100000).data.length ≤ 100000 := by
  refine ⟨rfl, rfl, rfl, ?_⟩
  calc (truncate t 100000).data.length = (t.data.take 100000).length := rfl
    _ ≤ 100000 := List.length_take_le _ _

/-- C8: the quiz text influences neither the refusal branch nor what is
displayed — two runs with quiz texts that produce the same guard verdict
and the same model response display the same outcome — and in the payload
the quiz text occupies only segment 2 (the exclusion-list segment): erasing
it makes the payload independent of the quiz text. -/
theorem quiz_text_noninterference (q c t1 t2 : String) (r : ModelResult)
    (hg : local_quiz_guard (some q) t1 = local_quiz_guard (some q) t2) :
    submit_handler true q c t1 (fun _ => r) =
      submit_handler true q c t2 (fun _ => r) ∧
    (call_model_messages q c t1).eraseIdx 2 =
      (call_model_messages q c t2).eraseIdx 2 := by
  constructor
  · unfold submit_handler
    by_cases hq : pyStrip q ≠ ""
    · have hcond : true = true ∧ pyStrip q ≠ "" := ⟨rfl, hq⟩
      rw [if_pos hcond, if_pos hcond, hg]
    · rw [if_neg (fun h => hq h.2), if_neg (fun h => hq h.2)]
  · rfl

/-- C8 witness: two different quiz texts, neither blocking the question,
lead to identical displayed outcomes and identical payloads outside the
quiz segment. -/
theorem quiz_text_noninterference_witness :
    local_quiz_guard (some "what is a basis") "quiz one" =
      local_quiz_guard (some "what is a basis") "another quiz" ∧
    submit_handler true "what is a basis" "course" "quiz one"
      (fun _ => ModelResult.ok "an answer") =
      submit_handler true "what is a basis" "course" "another quiz"
        (fun _ => ModelResult.ok "an answer") ∧
    (call_model_messages "what is a basis" "course" "quiz one").eraseIdx 2 =
      (call_model_messages "what is a basis" "course" "another quiz").eraseIdx 2 :=
  ⟨by decide,
   (quiz_text_noninterference "what is a basis" "course" "quiz one"
     "another quiz" (ModelResult.ok "an answer") (by decide)).1,
   (quiz_text_noninterference "what is a basis" "course" "quiz one"
     "another quiz" (ModelResult.ok "an answer") (by decide)).2⟩

/-- C6 counterexample: a course directory containing a PDF on which the
parser raises. The error is not swallowed: extraction returns it, the
folder loop propagates it, and `load_corpus` fails, contradicting the claim
that every extraction error is treated as empty text and loading continues. -/
theorem pdf_error_not_swallowed_counterexample :
    extract_text_from_pdf fsCorrupt "pdfs/a.pdf" = Except.error "bad pdf" ∧
    extract_texts_from_folder fsCorrupt "pdfs" = Except.error "bad pdf" ∧
    load_corpus fsCorrupt = Except.error "bad pdf" :=
  ⟨rfl, rfl, rfl⟩

/-- C6 amended: a missing PDF file is treated as empty text and a page
whose extraction yields no text contributes the empty string, but an error
raised by the PDF parser itself is not caught: extraction propagates it. -/
theorem pdf_extraction_behavior (fs : FileSystem) (path : String) :
    (fs.findFile path = none → extract_text_from_pdf fs path = Except.ok "") ∧
    (∀ pages, fs.findFile path = some (PdfEntry.readable pages) →
      extract_text_from_pdf fs path =
        Except.ok (String.intercalate "\n" (pages.map (fun p => p.getD "")))) ∧
    (∀ msg, fs.findFile path = some (PdfEntry.corrupt msg) →
      extract_text_from_pdf fs path = Except.error msg) := by
  refine ⟨?_, ?_, ?_⟩
  · intro h
    unfold extract_text_from_pdf
    rw [h]
  · intro pages h
    unfold extract_text_from_pdf
    rw [h]
  · intro msg h
    unfold extract_text_from_pdf
    rw [h]

/-- C6 amended witness: a missing file yields empty text; a file with one
empty page yields empty text; a corrupt file propagates its parse error. -/
theorem pdf_extraction_behavior_witness :
    fsCorrupt.findFile "pdfs/none.pdf" = none ∧
    extract_text_from_pdf fsCorrupt "pdfs/none.pdf" = Except.ok "" ∧
    fsCorrupt.findFile "pdfs/a.pdf" = some (PdfEntry.corrupt "bad pdf") ∧
    extract_text_from_pdf fsCorrupt "pdfs/a.pdf" = Except.error "bad pdf" :=
  ⟨rfl, (pdf_extraction_behavior fsCorrupt "pdfs/none.pdf").1 rfl, rfl,
   (pdf_extraction_behavior fsCorrupt "pdfs/a.pdf").2.2 "bad pdf" rfl⟩

/-- C7: when the configured course directory does not exist the course side
loads as the empty string, when the configured quiz file does not exist the
quiz side loads as the empty string, and when both are absent `load_corpus`
returns the pair of empty strings, never an error. -/
theorem load_corpus_missing_inputs (fs : FileSystem) :
    (fs.findDir COURSE_PDF_DIR = none →
      extract_texts_from_folder fs COURSE_PDF_DIR = Except.ok "") ∧
    (fs.findFile QUIZ_PDF_PATH = none →
      extract_text_from_pdf fs QUIZ_PDF_PATH = Except.ok "") ∧
    (fs.findDir COURSE_PDF_DIR = none → fs.findFile QUIZ_PDF_PATH = none →
      load_corpus fs = Except.ok ("", "")) := by
  refine ⟨?_, ?_, ?_⟩
  · intro h
    unfold extract_texts_from_folder
    rw [h]
  · intro h
    unfold extract_text_from_pdf
    rw [h]
  · intro hd hf
    unfold load_corpus extract_texts_from_folder extract_text_from_pdf
    rw [hd, hf]

/-- C7 witness: on an empty filesystem both sides load as empty strings. -/
theorem load_corpus_missing_inputs_witness :
    extract_texts_from_folder ⟨[], []⟩ COURSE_PDF_DIR = Except.ok "" ∧
    extract_text_from_pdf ⟨[], []⟩ QUIZ_PDF_PATH = Except.ok "" ∧
    load_corpus ⟨[], []⟩ = Except.ok ("", "") :=
  ⟨(load_corpus_missing_inputs ⟨[], []⟩).1 rfl,
   (load_corpus_missing_inputs ⟨[], []⟩).2.1 rfl,
   (load_corpus_missing_inputs ⟨[], []⟩).2.2 rfl rfl⟩
